import Mathlib

/-!
# ocpp-go (OCPP 1.6): GetDiagnostics and TriggerMessage payloads

A shallow embedding of `ocpp1.6/get_diagnostics.go` and `ocpp1.6/trigger_message.go`
together with the part of the struct validator (`gopkg.in/go-playground/validator.v9`)
that the `validate:"..."` tags of these two files exercise.

Conventions of the embedding

* A Go `string` is a Lean `String`; `utf8.RuneCountInString` is `String.length`
  (the number of code points).
* A Go `int` is a Lean `Int`; the code only compares these values, it never does
  arithmetic on them.
* A Go panic is the value `none` of an `Option` result.
* Package-level state (the validator instance `Validate`, the rule catalog inside it)
  is passed explicitly.
-/

namespace validator

/-- The value of one struct field as seen through reflection (`reflect.Value`),
restricted to the kinds that occur in the two payload files: `string`, `int` and
pointer (`*DateTime`). -/
inductive Value where
  | str (s : String)
  | int (i : Int)
  | ptr (isNil : Bool)
deriving DecidableEq, Repr

/-- Go `reflect.Value.String()`: the string itself for a string value, and a
placeholder text for any other kind (it never panics). -/
def Value.toGoString : Value → String
  | .str s => s
  | .int _ => "<int Value>"
  | .ptr _ => "<*ocpp16.DateTime Value>"

/-- The state a rule can query through `validator.FieldLevel`: the field under
validation (`fl.Field()`) and the parameter of the tag (`fl.Param()`). -/
structure FieldLevel where
  Field : Value
  Param : String
deriving DecidableEq, Repr

/-- Modelled from the spec: the validation context, which "carries read access to the
Feature Registry" (section 4.1); the registry is represented by the snapshot
`allActionNames()` of section 4.4.  In the library this is the `context.Context`
handed to `StructCtx`. -/
structure Context where
  allActionNames : List String
deriving DecidableEq, Repr

/-- The library type `validator.Func`: a rule registered by client code. -/
abbrev Func := FieldLevel → Bool

/-- The library type `validator.FuncCtx`: the form in which every rule is stored in
the catalog.  The result `none` stands for a panic of the rule. -/
abbrev FuncCtx := Context → FieldLevel → Option Bool

/-- The library function `wrapFunc`: a `Func` becomes a `FuncCtx` that drops the
context. -/
def wrapFunc (fn : Func) : FuncCtx := fun _ fl => some (fn fl)

/-- One decimal digit. -/
def digitValue (c : Char) : Option Nat :=
  if 48 ≤ c.toNat ∧ c.toNat ≤ 57 then some (c.toNat - 48) else none

/-- Reads a run of decimal digits, most significant first. -/
def parseDigits : List Char → Nat → Option Nat
  | [], acc => some acc
  | c :: cs, acc =>
    match digitValue c with
    | some d => parseDigits cs (acc * 10 + d)
    | none => none

/-- Reads a decimal number: `0`, or a non-empty run of digits that does not start
with `0`. -/
def parseDecimal : List Char → Option Nat
  | [] => none
  | ['0'] => some 0
  | '0' :: _ => none
  | cs => parseDigits cs 0

/-- The library helper `asInt` (`strconv.ParseInt(param, 0, 64)`, panicking on a parse
error).  The model reads the parameters written as an optionally signed decimal number
without a leading zero, in the 64-bit range (the parameters of this package are `0`
and `255`); it reads no other spelling. -/
def asInt (param : String) : Option Int :=
  let signed : Option Int :=
    match param.data with
    | '-' :: cs => (parseDecimal cs).map (fun n => - (n : Int))
    | '+' :: cs => (parseDecimal cs).map (fun n => (n : Int))
    | cs => (parseDecimal cs).map (fun n => (n : Int))
  match signed with
  | some i => if - (2 : Int) ^ 63 ≤ i ∧ i < (2 : Int) ^ 63 then some i else none
  | none => none

/-- The baked-in rule `required` (library function `hasValue`) for a field that is not
a pointer dereferenced by the engine: a string or an int has a value when it differs
from the zero value of its type, a pointer when it is not nil. -/
def hasValue (fl : FieldLevel) : Option Bool :=
  match fl.Field with
  | .str s => some (decide (s ≠ ""))
  | .int i => some (decide (i ≠ 0))
  | .ptr isNil => some (!isNil)

/-- The baked-in rules `gte` and `min` (library function `isGte`). -/
def isGte (fl : FieldLevel) : Option Bool :=
  match fl.Field with
  | .str s => (asInt fl.Param).map (fun p => decide ((s.length : Int) ≥ p))
  | .int i => (asInt fl.Param).map (fun p => decide (i ≥ p))
  | .ptr _ => none

/-- The baked-in rule `gt` (library function `isGt`). -/
def isGt (fl : FieldLevel) : Option Bool :=
  match fl.Field with
  | .str s => (asInt fl.Param).map (fun p => decide ((s.length : Int) > p))
  | .int i => (asInt fl.Param).map (fun p => decide (i > p))
  | .ptr _ => none

/-- The baked-in rules `lte` and `max` (library function `isLte`). -/
def isLte (fl : FieldLevel) : Option Bool :=
  match fl.Field with
  | .str s => (asInt fl.Param).map (fun p => decide ((s.length : Int) ≤ p))
  | .int i => (asInt fl.Param).map (fun p => decide (i ≤ p))
  | .ptr _ => none

/-- The baked-in rule `lt` (library function `isLt`). -/
def isLt (fl : FieldLevel) : Option Bool :=
  match fl.Field with
  | .str s => (asInt fl.Param).map (fun p => decide ((s.length : Int) < p))
  | .int i => (asInt fl.Param).map (fun p => decide (i < p))
  | .ptr _ => none

/-- The baked-in rule `uri` (library function `isURI`).  The string test itself
(`url.ParseRequestURI` of the Go standard library, applied after cutting a `#` suffix)
is the parameter `parseRequestURI`; any other kind of field is a panic. -/
def isURI (parseRequestURI : String → Bool) (fl : FieldLevel) : Option Bool :=
  match fl.Field with
  | .str s => some (parseRequestURI s)
  | _ => none

/-- The validator instance (`*validator.Validate`): the catalog of rules by tag name
(the Go map `validations`). -/
structure Validate where
  validations : String → Option FuncCtx

/-- The library constructor `validator.New()`: a catalog holding the baked-in rules. -/
def New (parseRequestURI : String → Bool) : Validate where
  validations := fun tag =>
    if tag = "required" then some (fun _ fl => hasValue fl)
    else if tag = "gte" then some (fun _ fl => isGte fl)
    else if tag = "min" then some (fun _ fl => isGte fl)
    else if tag = "gt" then some (fun _ fl => isGt fl)
    else if tag = "lte" then some (fun _ fl => isLte fl)
    else if tag = "max" then some (fun _ fl => isLte fl)
    else if tag = "lt" then some (fun _ fl => isLt fl)
    else if tag = "uri" then some (fun _ fl => isURI parseRequestURI fl)
    else none

/-- Tag names reserved by the engine (`restrictedTags`). -/
def restrictedTags : List String :=
  ["dive", "keys", "endkeys", "structonly", "omitempty", "-", "0x2C", "0x7C",
   "nostructlevel", "required", "isdefault"]

/-- Characters a rule name may not contain (`restrictedTagChars`). -/
def restrictedTagChars : String := ".[],|=+()`~!@#$%^&*\\\"/?<>\x7b\x7d"

/-- Go `strings.ContainsAny`. -/
def containsAny (s chars : String) : Bool :=
  s.data.any (fun c => chars.data.contains c)

/-- The library method `(*Validate).RegisterValidationCtx(tag, fn)`.
The outer `Option` is `none` when the call panics (a restricted tag name); otherwise
the call returns the catalog after the call and the returned `error`, which is
non-nil (`some`) only for an empty tag name.  A tag name that is already bound is bound
anew: the Go map assignment `v.validations[tag] = fn` replaces the previous rule. -/
def Validate.RegisterValidationCtx (v : Validate) (tag : String) (fn : FuncCtx) :
    Option (Validate × Option String) :=
  if tag.length = 0 then some (v, some "Function Key cannot be empty")
  else if restrictedTags.contains tag || containsAny tag restrictedTagChars then none
  else some (⟨fun t => if t = tag then some fn else v.validations t⟩, none)

/-- The library method `(*Validate).RegisterValidation(tag, fn)`: the rule is wrapped
and registered by `RegisterValidationCtx`. -/
def Validate.RegisterValidation (v : Validate) (tag : String) (fn : Func) :
    Option (Validate × Option String) :=
  v.RegisterValidationCtx tag (wrapFunc fn)

/-- One rule attached to a field (`cTag`): the rule name and its parameter, as the
engine parses them from `name=param` items separated by commas. -/
structure CTag where
  tag : String
  param : String
deriving DecidableEq, Repr

/-- One field of a struct with the rules of its `validate` tag, in attachment order
(`cField`). -/
structure CField where
  name : String
  tags : List CTag
deriving DecidableEq, Repr

/-- One violation (`validator.FieldError`): the struct field, the rule that failed and
the rule parameter. -/
structure FieldError where
  field : String
  tag : String
  param : String
deriving DecidableEq, Repr

/-- The engine loop of `traverseField` for a field of kind string, int or pointer
whose rules are `tags`: `omitempty` ends the loop when the field has no value; any
other rule is looked up in the catalog and run; the first rule that fails appends one
`FieldError` and ends the loop.  A rule missing from the catalog, or a rule that
panics, is a panic. -/
def traverseField (v : Validate) (ctx : Context) (name : String) (current : Value) :
    List CTag → Option (List FieldError)
  | [] => some []
  | ct :: next =>
    if ct.tag = "omitempty" then
      match hasValue ⟨current, ct.param⟩ with
      | some true => traverseField v ctx name current next
      | _ => some []
    else
      match v.validations ct.tag with
      | none => none
      | some fn =>
        match fn ctx ⟨current, ct.param⟩ with
        | none => none
        | some true => traverseField v ctx name current next
        | some false => some [⟨name, ct.tag, ct.param⟩]

/-- The engine loop of `validateStruct`: every field in declaration order, the errors
of each appended to those of the fields before it. -/
def validateStruct (v : Validate) (ctx : Context) :
    List (CField × Value) → Option (List FieldError)
  | [] => some []
  | (cf, current) :: rest =>
    match traverseField v ctx cf.name current cf.tags with
    | none => none
    | some errs =>
      match validateStruct v ctx rest with
      | none => none
      | some more => some (errs ++ more)

/-- The check made when the tags of a struct type are parsed (`extractStructCache`):
every rule name other than `omitempty` must be in the catalog, else the engine panics
with "Undefined validation function". -/
def tagsDefined (v : Validate) (fields : List (CField × Value)) : Bool :=
  fields.all (fun f => f.1.tags.all (fun ct =>
    ct.tag = "omitempty" || (v.validations ct.tag).isSome))

/-- The library method `(*Validate).StructCtx(ctx, s)` on the reflected fields of `s`:
`some []` is the nil error (the payload is valid), `some errs` the ordered
`ValidationErrors`, `none` a panic. -/
def Validate.StructCtx (v : Validate) (ctx : Context) (fields : List (CField × Value)) :
    Option (List FieldError) :=
  if tagsDefined v fields then validateStruct v ctx fields else none

end validator

namespace reflect

/-- Go `reflect.Type` for a named type: the descriptor of a declared type, identified
by the package and the name of its declaration (`PkgName.Name` is what
`Type.String()` prints).  Two named types are identical exactly when they come from
the same declaration. -/
structure RType where
  PkgName : String
  Name : String
deriving DecidableEq, Repr

end reflect

namespace ocpp16

open validator

/-! ## Action names -/

/-- Modelled from the spec: the action-name constant `GetDiagnosticsFeatureName`,
declared in another file of the package; section 3 gives its value. -/
def GetDiagnosticsFeatureName : String := "GetDiagnostics"

/-- Modelled from the spec: the action-name constant `TriggerMessageFeatureName`,
declared in another file of the package; section 3 gives its value. -/
def TriggerMessageFeatureName : String := "TriggerMessage"

/-- Modelled from the spec: the action-name constant `BootNotificationFeatureName`,
declared in another file of the package; section 8 gives its value. -/
def BootNotificationFeatureName : String := "BootNotification"

/-- Modelled from the spec: the action-name constant
`DiagnosticsStatusNotificationFeatureName`, declared in another file of the package;
an action name is the name of its feature. -/
def DiagnosticsStatusNotificationFeatureName : String := "DiagnosticsStatusNotification"

/-- Modelled from the spec: the action-name constant
`FirmwareStatusNotificationFeatureName`, declared in another file of the package;
an action name is the name of its feature. -/
def FirmwareStatusNotificationFeatureName : String := "FirmwareStatusNotification"

/-- Modelled from the spec: the action-name constant `HeartbeatFeatureName`, declared
in another file of the package; an action name is the name of its feature. -/
def HeartbeatFeatureName : String := "Heartbeat"

/-- Modelled from the spec: the action-name constant `MeterValuesFeatureName`, declared
in another file of the package; an action name is the name of its feature. -/
def MeterValuesFeatureName : String := "MeterValues"

/-- Modelled from the spec: the action-name constant `StatusNotificationFeatureName`,
declared in another file of the package; an action name is the name of its feature. -/
def StatusNotificationFeatureName : String := "StatusNotification"

/-! ## trigger_message.go -/

/-- Status reported in TriggerMessageConfirmation (`type TriggerMessageStatus string`). -/
abbrev TriggerMessageStatus := String

/-- Type of request to be triggered in a TriggerMessageRequest
(`type MessageTrigger string`). -/
abbrev MessageTrigger := String

def TriggerMessageStatusAccepted : TriggerMessageStatus := "Accepted"
def TriggerMessageStatusRejected : TriggerMessageStatus := "Rejected"
def TriggerMessageStatusNotImplemented : TriggerMessageStatus := "NotImplemented"

/-- The rule `triggerMessageStatus`: a switch over the three status constants. -/
def isValidTriggerMessageStatus (fl : FieldLevel) : Bool :=
  let status : TriggerMessageStatus := fl.Field.toGoString
  if status = TriggerMessageStatusAccepted ∨ status = TriggerMessageStatusRejected ∨
      status = TriggerMessageStatusNotImplemented then true
  else false

/-- The rule `messageTrigger`: a switch over six action-name constants. -/
def isValidMessageTrigger (fl : FieldLevel) : Bool :=
  let trigger : MessageTrigger := fl.Field.toGoString
  if trigger = BootNotificationFeatureName ∨
      trigger = DiagnosticsStatusNotificationFeatureName ∨
      trigger = FirmwareStatusNotificationFeatureName ∨
      trigger = HeartbeatFeatureName ∨
      trigger = MeterValuesFeatureName ∨
      trigger = StatusNotificationFeatureName then true
  else false

/-- The TriggerMessage request payload. -/
structure TriggerMessageRequest where
  RequestedMessage : MessageTrigger
  ConnectorId : Int
deriving DecidableEq, Repr

/-- The TriggerMessage confirmation payload. -/
structure TriggerMessageConfirmation where
  Status : TriggerMessageStatus
deriving DecidableEq, Repr

/-- The `validate` tags of `TriggerMessageRequest` with the field values of `r`. -/
def TriggerMessageRequest.fields (r : TriggerMessageRequest) : List (CField × Value) :=
  [(⟨"RequestedMessage", [⟨"required", ""⟩, ⟨"messageTrigger", ""⟩]⟩,
      .str r.RequestedMessage),
   (⟨"ConnectorId", [⟨"omitempty", ""⟩, ⟨"gt", "0"⟩]⟩, .int r.ConnectorId)]

/-- The `validate` tags of `TriggerMessageConfirmation` with the field values of `c`. -/
def TriggerMessageConfirmation.fields (c : TriggerMessageConfirmation) :
    List (CField × Value) :=
  [(⟨"Status", [⟨"required", ""⟩, ⟨"triggerMessageStatus", ""⟩]⟩, .str c.Status)]

/-- The feature descriptor of TriggerMessage. -/
structure TriggerMessageFeature where
deriving DecidableEq, Repr

def TriggerMessageFeature.GetFeatureName (_f : TriggerMessageFeature) : String :=
  TriggerMessageFeatureName

def TriggerMessageRequest.GetFeatureName (_r : TriggerMessageRequest) : String :=
  TriggerMessageFeatureName

def TriggerMessageConfirmation.GetFeatureName (_c : TriggerMessageConfirmation) : String :=
  TriggerMessageFeatureName

/-- Creates a new TriggerMessageRequest; `ConnectorId` keeps the zero value. -/
def NewTriggerMessageRequest (requestedMessage : MessageTrigger) : TriggerMessageRequest :=
  { RequestedMessage := requestedMessage, ConnectorId := 0 }

/-- Creates a new TriggerMessageConfirmation. -/
def NewTriggerMessageConfirmation (status : TriggerMessageStatus) :
    TriggerMessageConfirmation :=
  { Status := status }

/-- The package function `init` of trigger_message.go, run on the validator instance
`v`: two calls of `RegisterValidation`, the returned error of each assigned to the
blank identifier.  The result is `none` only when a call panics. -/
def init (v : Validate) : Option Validate :=
  match v.RegisterValidation "triggerMessageStatus" isValidTriggerMessageStatus with
  | none => none
  | some (v1, _) =>
    match v1.RegisterValidation "messageTrigger" isValidMessageTrigger with
    | none => none
    | some (v2, _) => some v2

/-! ## get_diagnostics.go -/

/-- Modelled from the spec: the timestamp type `DateTime`, declared in another file of
the package; a timestamp is represented by its position on the time line. -/
structure DateTime where
  unixNano : Int
deriving DecidableEq, Repr

/-- The GetDiagnostics request payload.  The two pointer fields are `none` when nil. -/
structure GetDiagnosticsRequest where
  Location : String
  Retries : Int
  RetryInterval : Int
  StartTime : Option DateTime
  EndTime : Option DateTime
deriving DecidableEq, Repr

/-- The GetDiagnostics confirmation payload. -/
structure GetDiagnosticsConfirmation where
  FileName : String
deriving DecidableEq, Repr

/-- The `validate` tags of `GetDiagnosticsRequest` with the field values of `r`.
`StartTime` and `EndTime` carry no `validate` tag, so the engine runs no rule on
them. -/
def GetDiagnosticsRequest.fields (r : GetDiagnosticsRequest) : List (CField × Value) :=
  [(⟨"Location", [⟨"required", ""⟩, ⟨"uri", ""⟩]⟩, .str r.Location),
   (⟨"Retries", [⟨"gte", "0"⟩]⟩, .int r.Retries),
   (⟨"RetryInterval", [⟨"gte", "0"⟩]⟩, .int r.RetryInterval),
   (⟨"StartTime", []⟩, .ptr r.StartTime.isNone),
   (⟨"EndTime", []⟩, .ptr r.EndTime.isNone)]

/-- The `validate` tags of `GetDiagnosticsConfirmation` with the field values of `c`. -/
def GetDiagnosticsConfirmation.fields (c : GetDiagnosticsConfirmation) :
    List (CField × Value) :=
  [(⟨"FileName", [⟨"max", "255"⟩]⟩, .str c.FileName)]

/-- The feature descriptor of GetDiagnostics. -/
structure GetDiagnosticsFeature where
deriving DecidableEq, Repr

def GetDiagnosticsFeature.GetFeatureName (_f : GetDiagnosticsFeature) : String :=
  GetDiagnosticsFeatureName

def GetDiagnosticsRequest.GetFeatureName (_r : GetDiagnosticsRequest) : String :=
  GetDiagnosticsFeatureName

def GetDiagnosticsConfirmation.GetFeatureName (_c : GetDiagnosticsConfirmation) : String :=
  GetDiagnosticsFeatureName

/-- Creates a new GetDiagnosticsRequest: the struct literal sets `Location`, every
other field keeps its zero value. -/
def NewGetDiagnosticsRequest (location : String) : GetDiagnosticsRequest :=
  { Location := location, Retries := 0, RetryInterval := 0, StartTime := none,
    EndTime := none }

/-- Creates a new GetDiagnosticsConfirmation: the empty struct literal. -/
def NewGetDiagnosticsConfirmation : GetDiagnosticsConfirmation :=
  { FileName := "" }

/-! ## Validation by the package-level validator -/

/-- Modelled from the spec: validation of a payload by the package-level validator
instance `Validate`, which is declared in another file of the package: the instance
is `validator.New()` in the state in which `init` leaves it, and the payload is checked
by `StructCtx` against the current registry snapshot. -/
def validate (parseRequestURI : String → Bool) (ctx : Context)
    (fields : List (CField × Value)) : Option (List FieldError) :=
  match init (New parseRequestURI) with
  | none => none
  | some v => v.StructCtx ctx fields

/-- Modelled from the spec: the test-only removal of a feature from the registry
(section 8), seen through the snapshot of action names. -/
def unregister (ctx : Context) (actionName : String) : Context :=
  ⟨ctx.allActionNames.filter (fun n => n ≠ actionName)⟩

/-- A registry snapshot in which "BootNotification" is a registered action name. -/
def bootRegistered : Context := ⟨["BootNotification", "Heartbeat", "TriggerMessage"]⟩

/-- A catalog in which the name `messageTrigger` is bound before `init` runs, to a
rule that rejects every value. -/
def preRegistered : Validate where
  validations := fun t =>
    if t = "messageTrigger" then some (wrapFunc (fun _ => false))
    else (New (fun _ => true)).validations t

/-! ## Reflected types of the payloads -/

/-- Go `reflect.TypeOf` at a value of the struct type `GetDiagnosticsRequest`. -/
def GetDiagnosticsRequest.TypeOf (_r : GetDiagnosticsRequest) : reflect.RType :=
  ⟨"ocpp16", "GetDiagnosticsRequest"⟩

/-- Go `reflect.TypeOf` at a value of the struct type `GetDiagnosticsConfirmation`. -/
def GetDiagnosticsConfirmation.TypeOf (_c : GetDiagnosticsConfirmation) : reflect.RType :=
  ⟨"ocpp16", "GetDiagnosticsConfirmation"⟩

/-- Go `reflect.TypeOf` at a value of the struct type `TriggerMessageRequest`. -/
def TriggerMessageRequest.TypeOf (_r : TriggerMessageRequest) : reflect.RType :=
  ⟨"ocpp16", "TriggerMessageRequest"⟩

/-- Go `reflect.TypeOf` at a value of the struct type `TriggerMessageConfirmation`. -/
def TriggerMessageConfirmation.TypeOf (_c : TriggerMessageConfirmation) : reflect.RType :=
  ⟨"ocpp16", "TriggerMessageConfirmation"⟩

/-- The method `GetRequestType`: `reflect.TypeOf(GetDiagnosticsRequest{})`, the type of
the zero value. -/
def GetDiagnosticsFeature.GetRequestType (_f : GetDiagnosticsFeature) : reflect.RType :=
  GetDiagnosticsRequest.TypeOf
    { Location := "", Retries := 0, RetryInterval := 0, StartTime := none, EndTime := none }

/-- The method `GetConfirmationType`: `reflect.TypeOf(GetDiagnosticsConfirmation{})`. -/
def GetDiagnosticsFeature.GetConfirmationType (_f : GetDiagnosticsFeature) : reflect.RType :=
  GetDiagnosticsConfirmation.TypeOf { FileName := "" }

/-- The method `GetRequestType`: `reflect.TypeOf(TriggerMessageRequest{})`. -/
def TriggerMessageFeature.GetRequestType (_f : TriggerMessageFeature) : reflect.RType :=
  TriggerMessageRequest.TypeOf { RequestedMessage := "", ConnectorId := 0 }

/-- The method `GetConfirmationType`: `reflect.TypeOf(TriggerMessageConfirmation{})`. -/
def TriggerMessageFeature.GetConfirmationType (_f : TriggerMessageFeature) : reflect.RType :=
  TriggerMessageConfirmation.TypeOf { Status := "" }

/-! ## Rule names referenced by the schemas -/

/-- The rule names written in the `validate` tags of a struct, in declaration order. -/
def referencedTags (fields : List (CField × Value)) : List String :=
  fields.flatMap (fun f => f.1.tags.map (fun ct => ct.tag))

/-- The referenced rule names that are not built in: neither the engine keyword
`omitempty` nor a rule of the catalog `validator.New()`. -/
def customTags (fields : List (CField × Value)) : List String :=
  (referencedTags fields).filter
    (fun t => t ≠ "omitempty" && ((New (fun _ => true)).validations t).isNone)

/-! ## Evaluation lemmas -/

theorem registerCtx_uri (v : Validate) (g : FuncCtx) :
    v.RegisterValidationCtx "uri" g =
      some (⟨fun t => if t = "uri" then some g else v.validations t⟩, none) := by
  have h1 : ("uri".length = 0) = False := by decide
  have h2 : (restrictedTags.contains "uri" ||
      containsAny "uri" restrictedTagChars) = false := by decide
  simp only [Validate.RegisterValidationCtx, h1, h2, if_false]
  rfl

theorem registerCtx_messageTrigger (v : Validate) (g : FuncCtx) :
    v.RegisterValidationCtx "messageTrigger" g =
      some (⟨fun t => if t = "messageTrigger" then some g else v.validations t⟩, none) := by
  have h1 : ("messageTrigger".length = 0) = False := by decide
  have h2 : (restrictedTags.contains "messageTrigger" ||
      containsAny "messageTrigger" restrictedTagChars) = false := by decide
  simp only [Validate.RegisterValidationCtx, h1, h2, if_false]
  rfl

theorem registerCtx_triggerMessageStatus (v : Validate) (g : FuncCtx) :
    v.RegisterValidationCtx "triggerMessageStatus" g =
      some (⟨fun t => if t = "triggerMessageStatus" then some g else v.validations t⟩,
        none) := by
  have h1 : ("triggerMessageStatus".length = 0) = False := by decide
  have h2 : (restrictedTags.contains "triggerMessageStatus" ||
      containsAny "triggerMessageStatus" restrictedTagChars) = false := by decide
  simp only [Validate.RegisterValidationCtx, h1, h2, if_false]
  rfl

theorem init_eq (v : Validate) :
    init v = some ⟨fun t =>
      if t = "messageTrigger" then some (wrapFunc isValidMessageTrigger)
      else if t = "triggerMessageStatus" then some (wrapFunc isValidTriggerMessageStatus)
      else v.validations t⟩ := by
  simp only [init, Validate.RegisterValidation, registerCtx_triggerMessageStatus,
    registerCtx_messageTrigger]

theorem asInt_zero : asInt "0" = some 0 := by decide

theorem asInt_255 : asInt "255" = some 255 := by decide

theorem isValidTriggerMessageStatus_iff (s param : String) :
    isValidTriggerMessageStatus ⟨.str s, param⟩ = true ↔
      (s = "Accepted" ∨ s = "Rejected" ∨ s = "NotImplemented") := by
  simp [isValidTriggerMessageStatus, Value.toGoString, TriggerMessageStatusAccepted,
    TriggerMessageStatusRejected, TriggerMessageStatusNotImplemented]

theorem isValidMessageTrigger_iff (m param : String) :
    isValidMessageTrigger ⟨.str m, param⟩ = true ↔
      (m = "BootNotification" ∨ m = "DiagnosticsStatusNotification" ∨
        m = "FirmwareStatusNotification" ∨ m = "Heartbeat" ∨ m = "MeterValues" ∨
        m = "StatusNotification") := by
  simp [isValidMessageTrigger, Value.toGoString, BootNotificationFeatureName,
    DiagnosticsStatusNotificationFeatureName, FirmwareStatusNotificationFeatureName,
    HeartbeatFeatureName, MeterValuesFeatureName, StatusNotificationFeatureName]

/-- The violations of a TriggerMessageConfirmation, in closed form. -/
theorem validate_TriggerMessageConfirmation (p : String → Bool) (ctx : Context)
    (c : TriggerMessageConfirmation) :
    validate p ctx c.fields = some
      (if c.Status = "" then [⟨"Status", "required", ""⟩]
       else if isValidTriggerMessageStatus ⟨.str c.Status, ""⟩ then []
       else [⟨"Status", "triggerMessageStatus", ""⟩]) := by
  by_cases h1 : c.Status = "" <;>
  by_cases h2 : isValidTriggerMessageStatus ⟨.str c.Status, ""⟩ = true <;>
  simp [validate, init_eq, Validate.StructCtx, tagsDefined, validateStruct, traverseField,
    TriggerMessageConfirmation.fields, New, wrapFunc, hasValue, h1, h2]

/-- The violations of a TriggerMessageRequest, in closed form. -/
theorem validate_TriggerMessageRequest (p : String → Bool) (ctx : Context)
    (r : TriggerMessageRequest) :
    validate p ctx r.fields = some
      ((if r.RequestedMessage = "" then [⟨"RequestedMessage", "required", ""⟩]
        else if isValidMessageTrigger ⟨.str r.RequestedMessage, ""⟩ then []
        else [⟨"RequestedMessage", "messageTrigger", ""⟩]) ++
       (if r.ConnectorId = 0 then []
        else if r.ConnectorId > 0 then [] else [⟨"ConnectorId", "gt", "0"⟩])) := by
  by_cases h1 : r.RequestedMessage = "" <;>
  by_cases h2 : isValidMessageTrigger ⟨.str r.RequestedMessage, ""⟩ = true <;>
  by_cases h3 : r.ConnectorId = 0 <;>
  by_cases h4 : r.ConnectorId > 0 <;>
  simp [validate, init_eq, Validate.StructCtx, tagsDefined, validateStruct, traverseField,
    TriggerMessageRequest.fields, New, wrapFunc, hasValue, isGt, asInt_zero, h1, h2, h3, h4]

/-- The violations of a GetDiagnosticsRequest, in closed form. -/
theorem validate_GetDiagnosticsRequest (p : String → Bool) (ctx : Context)
    (r : GetDiagnosticsRequest) :
    validate p ctx r.fields = some
      ((if r.Location = "" then [⟨"Location", "required", ""⟩]
        else if p r.Location then [] else [⟨"Location", "uri", ""⟩]) ++
       (if r.Retries ≥ 0 then [] else [⟨"Retries", "gte", "0"⟩]) ++
       (if r.RetryInterval ≥ 0 then [] else [⟨"RetryInterval", "gte", "0"⟩])) := by
  by_cases h1 : r.Location = "" <;>
  by_cases h2 : p r.Location = true <;>
  by_cases h3 : r.Retries ≥ 0 <;>
  by_cases h4 : r.RetryInterval ≥ 0 <;>
  simp [validate, init_eq, Validate.StructCtx, tagsDefined, validateStruct, traverseField,
    GetDiagnosticsRequest.fields, New, wrapFunc, hasValue, isGte, isURI, asInt_zero, h1, h2,
    h3, h4]

/-- The violations of a GetDiagnosticsConfirmation, in closed form. -/
theorem validate_GetDiagnosticsConfirmation (p : String → Bool) (ctx : Context)
    (c : GetDiagnosticsConfirmation) :
    validate p ctx c.fields = some
      (if c.FileName.length ≤ 255 then [] else [⟨"FileName", "max", "255"⟩]) := by
  by_cases h1 : c.FileName.length ≤ 255 <;>
  simp [validate, init_eq, Validate.StructCtx, tagsDefined, validateStruct, traverseField,
    GetDiagnosticsConfirmation.fields, New, wrapFunc, isLte, asInt_255, h1]

/-! ## The claims -/

/-- C1: validating `TriggerMessageConfirmation{Status: s}` succeeds exactly when `s` is
one of "Accepted", "Rejected", "NotImplemented"; the empty string, "Maybe" and the
lower-case "accepted" fail. -/
theorem C1_status_valid_iff (p : String → Bool) (ctx : Context) :
    (∀ s : String,
      validate p ctx (TriggerMessageConfirmation.fields { Status := s }) = some [] ↔
        (s = "Accepted" ∨ s = "Rejected" ∨ s = "NotImplemented")) ∧
    validate p ctx (TriggerMessageConfirmation.fields { Status := "" }) =
      some [⟨"Status", "required", ""⟩] ∧
    validate p ctx (TriggerMessageConfirmation.fields { Status := "Maybe" }) =
      some [⟨"Status", "triggerMessageStatus", ""⟩] ∧
    validate p ctx (TriggerMessageConfirmation.fields { Status := "accepted" }) =
      some [⟨"Status", "triggerMessageStatus", ""⟩] := by
  refine ⟨fun s => ?_, ?_, ?_, ?_⟩
  · rw [validate_TriggerMessageConfirmation, ← isValidTriggerMessageStatus_iff s ""]
    by_cases h1 : s = ""
    · subst h1
      simp [isValidTriggerMessageStatus, Value.toGoString, TriggerMessageStatusAccepted,
        TriggerMessageStatusRejected, TriggerMessageStatusNotImplemented]
    · by_cases h2 : isValidTriggerMessageStatus ⟨.str s, ""⟩ = true <;> simp [h1, h2]
  · rw [validate_TriggerMessageConfirmation]; rfl
  · rw [validate_TriggerMessageConfirmation]; decide
  · rw [validate_TriggerMessageConfirmation]; decide

/-- C2, as stated, fails: after "BootNotification" is removed from the registry, the
payload `TriggerMessageRequest{RequestedMessage: "BootNotification"}` still passes
validation. -/
theorem C2_unregistered_still_passes :
    "BootNotification" ∈ bootRegistered.allActionNames ∧
    validate (fun _ => true) bootRegistered
      (TriggerMessageRequest.fields { RequestedMessage := "BootNotification",
                                      ConnectorId := 0 }) = some [] ∧
    "BootNotification" ∉ (unregister bootRegistered "BootNotification").allActionNames ∧
    validate (fun _ => true) (unregister bootRegistered "BootNotification")
      (TriggerMessageRequest.fields { RequestedMessage := "BootNotification",
                                      ConnectorId := 0 }) = some [] := by
  decide

/-- C2, amended: the messageTrigger rule is a fixed enumeration that does not consult
the registry.  The registered rule gives the same answer under any two registry
snapshots, validation of a TriggerMessageRequest gives the same result under any two
registry snapshots, and `TriggerMessageRequest{RequestedMessage: "BootNotification"}`
passes under every registry snapshot. -/
theorem C2_messageTrigger_ignores_registry (p : String → Bool) (ctx ctx' : Context) :
    (∀ fl : FieldLevel,
      wrapFunc isValidMessageTrigger ctx fl = wrapFunc isValidMessageTrigger ctx' fl) ∧
    (∀ r : TriggerMessageRequest, validate p ctx r.fields = validate p ctx' r.fields) ∧
    validate p ctx
      (TriggerMessageRequest.fields { RequestedMessage := "BootNotification",
                                      ConnectorId := 0 }) = some [] := by
  refine ⟨fun fl => rfl, fun r => ?_, ?_⟩
  · rw [validate_TriggerMessageRequest, validate_TriggerMessageRequest]
  · rw [validate_TriggerMessageRequest]; decide

/-- C3: the rule `isValidMessageTrigger` accepts a string exactly when it is one of the
six action names BootNotification, DiagnosticsStatusNotification,
FirmwareStatusNotification, Heartbeat, MeterValues, StatusNotification; it rejects
"TriggerMessage", "GetDiagnostics" and the empty string. -/
theorem C3_messageTrigger_accepts_iff (param : String) :
    (∀ m : String,
      isValidMessageTrigger ⟨.str m, param⟩ = true ↔
        (m = "BootNotification" ∨ m = "DiagnosticsStatusNotification" ∨
          m = "FirmwareStatusNotification" ∨ m = "Heartbeat" ∨ m = "MeterValues" ∨
          m = "StatusNotification")) ∧
    isValidMessageTrigger ⟨.str "TriggerMessage", param⟩ = false ∧
    isValidMessageTrigger ⟨.str "GetDiagnostics", param⟩ = false ∧
    isValidMessageTrigger ⟨.str "", param⟩ = false := by
  refine ⟨fun m => isValidMessageTrigger_iff m param, ?_, ?_, ?_⟩ <;>
  simp [isValidMessageTrigger, Value.toGoString, BootNotificationFeatureName,
    DiagnosticsStatusNotificationFeatureName, FirmwareStatusNotificationFeatureName,
    HeartbeatFeatureName, MeterValuesFeatureName, StatusNotificationFeatureName]

/-- C4: for a GetDiagnosticsRequest whose Location is present and a valid URI,
validation succeeds exactly when Retries and RetryInterval are both at least 0; with
Retries = -1 it fails with a violation of `gte` on Retries, and with Retries = 0 and a
RetryInterval of 0 it succeeds. -/
theorem C4_retries_nonnegative (p : String → Bool) (ctx : Context)
    (r : GetDiagnosticsRequest) (hpresent : r.Location ≠ "") (huri : p r.Location = true) :
    (validate p ctx r.fields = some [] ↔ (r.Retries ≥ 0 ∧ r.RetryInterval ≥ 0)) ∧
    (∃ errs, validate p ctx (GetDiagnosticsRequest.fields { r with Retries := -1 }) =
        some (⟨"Retries", "gte", "0"⟩ :: errs)) ∧
    validate p ctx (GetDiagnosticsRequest.fields { r with Retries := 0, RetryInterval := 0 }) =
      some [] := by
  refine ⟨?_, ?_, ?_⟩
  · rw [validate_GetDiagnosticsRequest]
    by_cases h3 : r.Retries ≥ 0 <;> by_cases h4 : r.RetryInterval ≥ 0 <;>
      simp [hpresent, huri, h3, h4]
  · rw [validate_GetDiagnosticsRequest]
    simp [hpresent, huri]
  · rw [validate_GetDiagnosticsRequest]
    simp [hpresent, huri]

/-- C4 at a concrete request: a present, valid Location with Retries = 3 and
RetryInterval = 0. -/
theorem C4_retries_nonnegative_witness :
    (validate (fun s => s.length > 3) ⟨[]⟩
        (GetDiagnosticsRequest.fields ⟨"ftp://host/dir", 3, 0, none, none⟩) = some [] ↔
      ((3 : Int) ≥ 0 ∧ (0 : Int) ≥ 0)) ∧
    (∃ errs, validate (fun s => s.length > 3) ⟨[]⟩
        (GetDiagnosticsRequest.fields ⟨"ftp://host/dir", -1, 0, none, none⟩) =
        some (⟨"Retries", "gte", "0"⟩ :: errs)) ∧
    validate (fun s => s.length > 3) ⟨[]⟩
        (GetDiagnosticsRequest.fields ⟨"ftp://host/dir", 0, 0, none, none⟩) = some [] :=
  C4_retries_nonnegative (fun s => s.length > 3) ⟨[]⟩ ⟨"ftp://host/dir", 3, 0, none, none⟩
    (by decide) (by decide)

/-- C5: validating `GetDiagnosticsConfirmation{FileName: f}` succeeds exactly when the
length of `f` is at most 255; a name of 255 characters passes, a name of 256 characters
fails with a violation of the `max` rule, and the empty file name passes. -/
theorem C5_fileName_max_length (p : String → Bool) (ctx : Context) :
    (∀ f : String,
      validate p ctx (GetDiagnosticsConfirmation.fields { FileName := f }) = some [] ↔
        f.length ≤ 255) ∧
    validate p ctx
      (GetDiagnosticsConfirmation.fields { FileName := String.mk (List.replicate 255 'a') }) =
      some [] ∧
    validate p ctx
      (GetDiagnosticsConfirmation.fields { FileName := String.mk (List.replicate 256 'a') }) =
      some [⟨"FileName", "max", "255"⟩] ∧
    validate p ctx (GetDiagnosticsConfirmation.fields { FileName := "" }) = some [] := by
  have h255 : (String.mk (List.replicate 255 'a')).length = 255 :=
    List.length_replicate 255 'a'
  have h256 : (String.mk (List.replicate 256 'a')).length = 256 :=
    List.length_replicate 256 'a'
  refine ⟨fun f => ?_, ?_, ?_, ?_⟩
  · rw [validate_GetDiagnosticsConfirmation]
    by_cases h : f.length ≤ 255 <;> simp [h]
  · rw [validate_GetDiagnosticsConfirmation, h255]
    rfl
  · rw [validate_GetDiagnosticsConfirmation, h256]
    rfl
  · rw [validate_GetDiagnosticsConfirmation]
    rfl

/-- C6: when a field declared `required` is empty (GetDiagnosticsRequest.Location,
TriggerMessageRequest.RequestedMessage, TriggerMessageConfirmation.Status), validation
fails and reports exactly one violation for that field, naming the `required` rule.
The second rule of the field is not run: the engine stops at `required` whatever rules
follow it, and the result is the same when the second rule name (uri, messageTrigger,
triggerMessageStatus) is bound to an arbitrary rule `g`, even one that panics. -/
theorem C6_required_short_circuits (p : String → Bool) (ctx : Context) :
    (∀ r : GetDiagnosticsRequest, ∃ errs,
      validate p ctx (GetDiagnosticsRequest.fields { r with Location := "" }) = some errs ∧
      errs ≠ [] ∧
      errs.filter (fun e => e.field = "Location") = [⟨"Location", "required", ""⟩]) ∧
    (∀ r : TriggerMessageRequest, ∃ errs,
      validate p ctx (TriggerMessageRequest.fields { r with RequestedMessage := "" }) =
        some errs ∧
      errs ≠ [] ∧
      errs.filter (fun e => e.field = "RequestedMessage") =
        [⟨"RequestedMessage", "required", ""⟩]) ∧
    validate p ctx (TriggerMessageConfirmation.fields { Status := "" }) =
      some [⟨"Status", "required", ""⟩] ∧
    (∃ v, init (New p) = some v ∧
      ∀ (name : String) (rest : List CTag),
        traverseField v ctx name (.str "") (⟨"required", ""⟩ :: rest) =
          some [⟨name, "required", ""⟩]) ∧
    (∀ g : FuncCtx, ∃ v v',
      init (New p) = some v ∧ v.RegisterValidationCtx "uri" g = some (v', none) ∧
      ∀ r : GetDiagnosticsRequest,
        (v'.StructCtx ctx (GetDiagnosticsRequest.fields { r with Location := "" })).map
            (fun errs => errs.filter (fun e => e.field = "Location")) =
          some [⟨"Location", "required", ""⟩]) ∧
    (∀ g : FuncCtx, ∃ v v',
      init (New p) = some v ∧ v.RegisterValidationCtx "messageTrigger" g = some (v', none) ∧
      ∀ r : TriggerMessageRequest,
        (v'.StructCtx ctx (TriggerMessageRequest.fields { r with RequestedMessage := "" })).map
            (fun errs => errs.filter (fun e => e.field = "RequestedMessage")) =
          some [⟨"RequestedMessage", "required", ""⟩]) ∧
    (∀ g : FuncCtx, ∃ v v',
      init (New p) = some v ∧
      v.RegisterValidationCtx "triggerMessageStatus" g = some (v', none) ∧
      v'.StructCtx ctx (TriggerMessageConfirmation.fields { Status := "" }) =
        some [⟨"Status", "required", ""⟩]) := by
  refine ⟨fun r => ?_, fun r => ?_, ?_, ?_, fun g => ?_, fun g => ?_, fun g => ?_⟩
  · refine ⟨_, validate_GetDiagnosticsRequest p ctx _, ?_, ?_⟩
    · simp
    · by_cases h3 : r.Retries ≥ 0 <;> by_cases h4 : r.RetryInterval ≥ 0 <;>
        simp [h3, h4, List.filter]
  · refine ⟨_, validate_TriggerMessageRequest p ctx _, ?_, ?_⟩
    · simp
    · by_cases h3 : r.ConnectorId = 0 <;> by_cases h4 : r.ConnectorId > 0 <;>
        simp [h3, h4, List.filter]
  · rw [validate_TriggerMessageConfirmation]; rfl
  · refine ⟨_, init_eq _, fun name rest => ?_⟩
    simp [traverseField, New, hasValue]
  · refine ⟨_, _, init_eq _, registerCtx_uri _ g, fun r => ?_⟩
    · by_cases h3 : r.Retries ≥ 0 <;> by_cases h4 : r.RetryInterval ≥ 0 <;>
        simp [Validate.StructCtx, tagsDefined, validateStruct, traverseField,
          GetDiagnosticsRequest.fields, New, wrapFunc, hasValue, isGte, asInt_zero, h3, h4,
          List.filter]
  · refine ⟨_, _, init_eq _, registerCtx_messageTrigger _ g, fun r => ?_⟩
    · by_cases h3 : r.ConnectorId = 0 <;> by_cases h4 : r.ConnectorId > 0 <;>
        simp [Validate.StructCtx, tagsDefined, validateStruct, traverseField,
          TriggerMessageRequest.fields, New, wrapFunc, hasValue, isGt, asInt_zero, h3, h4,
          List.filter]
  · refine ⟨_, _, init_eq _, registerCtx_triggerMessageStatus _ g, ?_⟩
    · simp [Validate.StructCtx, tagsDefined, validateStruct, traverseField,
        TriggerMessageConfirmation.fields, New, wrapFunc, hasValue]

/-- C7: for every GetDiagnosticsRequest the violation list holds one entry for each of
Location, Retries, RetryInterval whose rules are violated, in declaration order, with
no stop after the first; `{Location: "", Retries: -1, RetryInterval: -1}` yields exactly
Location/required, Retries/gte, RetryInterval/gte. -/
theorem C7_all_violations_in_order (p : String → Bool) (ctx : Context) :
    (∀ r : GetDiagnosticsRequest,
      validate p ctx r.fields = some
        ((if r.Location = "" then [⟨"Location", "required", ""⟩]
          else if p r.Location = false then [⟨"Location", "uri", ""⟩] else []) ++
         (if r.Retries < 0 then [⟨"Retries", "gte", "0"⟩] else []) ++
         (if r.RetryInterval < 0 then [⟨"RetryInterval", "gte", "0"⟩] else []))) ∧
    (∀ start stop : Option DateTime,
      validate p ctx (GetDiagnosticsRequest.fields
          { Location := "", Retries := -1, RetryInterval := -1, StartTime := start,
            EndTime := stop }) =
        some [⟨"Location", "required", ""⟩, ⟨"Retries", "gte", "0"⟩,
              ⟨"RetryInterval", "gte", "0"⟩]) := by
  refine ⟨fun r => ?_, fun start stop => ?_⟩
  · have e3 : r.Retries < 0 ↔ ¬ r.Retries ≥ 0 := not_le.symm
    have e4 : r.RetryInterval < 0 ↔ ¬ r.RetryInterval ≥ 0 := not_le.symm
    rw [validate_GetDiagnosticsRequest]
    cases hp : p r.Location <;> by_cases h1 : r.Location = "" <;>
    by_cases h3 : r.Retries ≥ 0 <;> by_cases h4 : r.RetryInterval ≥ 0 <;>
      simp [e3, e4, h1, h3, h4]
  · rw [validate_GetDiagnosticsRequest]
    rfl

/-- C8: for both features, the action name returned by a request value, by a
confirmation value and by the feature descriptor is the same, whatever the field
contents. -/
theorem C8_feature_name_joins (f : GetDiagnosticsFeature) (g : TriggerMessageFeature) :
    (∀ (r : GetDiagnosticsRequest) (c : GetDiagnosticsConfirmation),
      r.GetFeatureName = c.GetFeatureName ∧ c.GetFeatureName = f.GetFeatureName ∧
      f.GetFeatureName = GetDiagnosticsFeatureName) ∧
    (∀ (r : TriggerMessageRequest) (c : TriggerMessageConfirmation),
      r.GetFeatureName = c.GetFeatureName ∧ c.GetFeatureName = g.GetFeatureName ∧
      g.GetFeatureName = TriggerMessageFeatureName) :=
  ⟨fun _ _ => ⟨rfl, rfl, rfl⟩, fun _ _ => ⟨rfl, rfl, rfl⟩⟩

/-- C9, as stated, fails: on a catalog in which "messageTrigger" is already bound (to a
rule rejecting "Heartbeat"), registering that name again reports no error and does not
panic, `init` completes, and afterwards the name is bound to a rule accepting
"Heartbeat": the existing rule was replaced silently. -/
theorem C9_reregistration_overwrites :
    (preRegistered.validations "messageTrigger").map
        (fun rule => rule ⟨[]⟩ ⟨.str "Heartbeat", ""⟩) = some (some false) ∧
    (preRegistered.RegisterValidation "messageTrigger" isValidMessageTrigger).map
        (fun res => res.2) = some none ∧
    (init preRegistered).isSome = true ∧
    ((init preRegistered).bind (fun v => v.validations "messageTrigger")).map
        (fun rule => rule ⟨[]⟩ ⟨.str "Heartbeat", ""⟩) = some (some true) := by
  decide

/-- C9, amended: registration of the rules "triggerMessageStatus" and "messageTrigger"
at initialization never fails or aborts.  For every prior state of the rule catalog,
also one in which either name is already bound, both calls return a nil error, `init`
completes, the two names are then bound to `isValidTriggerMessageStatus` and
`isValidMessageTrigger` (replacing a rule bound before), and every other name keeps its
rule. -/
theorem C9_init_always_completes (v : Validate) :
    (v.RegisterValidation "triggerMessageStatus" isValidTriggerMessageStatus).map
        (fun res => res.2) = some none ∧
    (v.RegisterValidation "messageTrigger" isValidMessageTrigger).map
        (fun res => res.2) = some none ∧
    ∃ v', init v = some v' ∧
      v'.validations "triggerMessageStatus" = some (wrapFunc isValidTriggerMessageStatus) ∧
      v'.validations "messageTrigger" = some (wrapFunc isValidMessageTrigger) ∧
      ∀ tag : String, tag ≠ "triggerMessageStatus" ∧ tag ≠ "messageTrigger" →
        v'.validations tag = v.validations tag := by
  refine ⟨?_, ?_, _, init_eq v, ?_, ?_, fun tag h => ?_⟩
  · simp [Validate.RegisterValidation, registerCtx_triggerMessageStatus]
  · simp [Validate.RegisterValidation, registerCtx_messageTrigger]
  · simp
  · simp
  · simp [h.1, h.2]

/-- C10: for every `m` accepted by the messageTrigger rule, `NewTriggerMessageRequest m`
has RequestedMessage = m, ConnectorId unset (zero) and passes validation; for every
status `s` among Accepted, Rejected, NotImplemented, `NewTriggerMessageConfirmation s`
has Status = s and passes validation; `NewGetDiagnosticsConfirmation` passes
validation. -/
theorem C10_constructors_valid (p : String → Bool) (ctx : Context) (m : MessageTrigger)
    (s : TriggerMessageStatus)
    (hm : isValidMessageTrigger ⟨.str m, ""⟩ = true)
    (hs : s = TriggerMessageStatusAccepted ∨ s = TriggerMessageStatusRejected ∨
      s = TriggerMessageStatusNotImplemented) :
    ((NewTriggerMessageRequest m).RequestedMessage = m ∧
      (NewTriggerMessageRequest m).ConnectorId = 0 ∧
      validate p ctx (NewTriggerMessageRequest m).fields = some []) ∧
    ((NewTriggerMessageConfirmation s).Status = s ∧
      validate p ctx (NewTriggerMessageConfirmation s).fields = some []) ∧
    validate p ctx NewGetDiagnosticsConfirmation.fields = some [] := by
  refine ⟨⟨rfl, rfl, ?_⟩, ⟨rfl, ?_⟩, ?_⟩
  · have hne : m ≠ "" := by
      rintro rfl
      revert hm
      decide
    rw [validate_TriggerMessageRequest]
    simp [NewTriggerMessageRequest, hne, hm]
  · have hv : isValidTriggerMessageStatus ⟨.str s, ""⟩ = true :=
      (isValidTriggerMessageStatus_iff s "").mpr hs
    have hne : s ≠ "" := by
      rintro rfl
      revert hv
      decide
    rw [validate_TriggerMessageConfirmation]
    simp [NewTriggerMessageConfirmation, hne, hv]
  · rw [validate_GetDiagnosticsConfirmation]
    rfl

/-- C10 at concrete inputs: the trigger "Heartbeat" and the status "Rejected". -/
theorem C10_constructors_valid_witness :
    ((NewTriggerMessageRequest "Heartbeat").RequestedMessage = "Heartbeat" ∧
      (NewTriggerMessageRequest "Heartbeat").ConnectorId = 0 ∧
      validate (fun _ => false) ⟨[]⟩ (NewTriggerMessageRequest "Heartbeat").fields =
        some []) ∧
    ((NewTriggerMessageConfirmation "Rejected").Status = "Rejected" ∧
      validate (fun _ => false) ⟨[]⟩ (NewTriggerMessageConfirmation "Rejected").fields =
        some []) ∧
    validate (fun _ => false) ⟨[]⟩ NewGetDiagnosticsConfirmation.fields = some [] :=
  C10_constructors_valid (fun _ => false) ⟨[]⟩ "Heartbeat" "Rejected" (by decide)
    (by decide)

/-- C11: the code departs from the claim at the location "ftp://host/dir":
`NewGetDiagnosticsRequest` stores its argument in the required field Location, which
is therefore not unset; Retries, RetryInterval, StartTime and EndTime are unset. -/
theorem C11_location_is_set :
    (NewGetDiagnosticsRequest "ftp://host/dir").Location = "ftp://host/dir" ∧
    (NewGetDiagnosticsRequest "ftp://host/dir").Location ≠ "" ∧
    (NewGetDiagnosticsRequest "ftp://host/dir").Retries = 0 ∧
    (NewGetDiagnosticsRequest "ftp://host/dir").RetryInterval = 0 ∧
    (NewGetDiagnosticsRequest "ftp://host/dir").StartTime = none ∧
    (NewGetDiagnosticsRequest "ftp://host/dir").EndTime = none := by
  decide

/-- C12: the rule names that the four payload types reference and that are not built
in are `messageTrigger` (TriggerMessageRequest) and `triggerMessageStatus`
(TriggerMessageConfirmation); `init` binds each of them, under exactly that name, to
`isValidMessageTrigger` and `isValidTriggerMessageStatus`, so that after `init` every
rule name referenced by the four schemas is in the catalog, while before `init` the two
TriggerMessage schemas reference a name that is not. -/
theorem C12_custom_rules_registered (p : String → Bool) :
    ((∀ r : TriggerMessageRequest, customTags r.fields = ["messageTrigger"]) ∧
      (∀ c : TriggerMessageConfirmation, customTags c.fields = ["triggerMessageStatus"]) ∧
      (∀ r : GetDiagnosticsRequest, customTags r.fields = []) ∧
      (∀ c : GetDiagnosticsConfirmation, customTags c.fields = [])) ∧
    (∀ v : Validate, ∃ v', init v = some v' ∧
      v'.validations "messageTrigger" = some (wrapFunc isValidMessageTrigger) ∧
      v'.validations "triggerMessageStatus" =
        some (wrapFunc isValidTriggerMessageStatus)) ∧
    (∃ v, init (New p) = some v ∧
      (∀ r : TriggerMessageRequest, tagsDefined v r.fields = true) ∧
      (∀ c : TriggerMessageConfirmation, tagsDefined v c.fields = true) ∧
      (∀ r : GetDiagnosticsRequest, tagsDefined v r.fields = true) ∧
      (∀ c : GetDiagnosticsConfirmation, tagsDefined v c.fields = true)) ∧
    (∀ r : TriggerMessageRequest, tagsDefined (New p) r.fields = false) ∧
    (∀ c : TriggerMessageConfirmation, tagsDefined (New p) c.fields = false) := by
  refine ⟨⟨fun r => ?_, fun c => ?_, fun r => ?_, fun c => ?_⟩, fun v => ?_, ?_,
    fun r => ?_, fun c => ?_⟩
  · simp [customTags, referencedTags, TriggerMessageRequest.fields, New, List.filter]
  · simp [customTags, referencedTags, TriggerMessageConfirmation.fields, New, List.filter]
  · simp [customTags, referencedTags, GetDiagnosticsRequest.fields, New, List.filter]
  · simp [customTags, referencedTags, GetDiagnosticsConfirmation.fields, New, List.filter]
  · refine ⟨_, init_eq v, ?_, ?_⟩ <;> simp
  · refine ⟨_, init_eq _, fun r => ?_, fun c => ?_, fun r => ?_, fun c => ?_⟩
    · simp [tagsDefined, TriggerMessageRequest.fields, New]
    · simp [tagsDefined, TriggerMessageConfirmation.fields, New]
    · simp [tagsDefined, GetDiagnosticsRequest.fields, New]
    · simp [tagsDefined, GetDiagnosticsConfirmation.fields, New]
  · simp [tagsDefined, TriggerMessageRequest.fields, New]
  · simp [tagsDefined, TriggerMessageConfirmation.fields, New]

/-- C13: for each feature descriptor `GetRequestType` is the type of the feature's own
request payload and `GetConfirmationType` the type of its own confirmation payload;
the four payload types of the two features are pairwise distinct. -/
theorem C13_descriptor_types (f : GetDiagnosticsFeature) (g : TriggerMessageFeature) :
    (∀ (r : GetDiagnosticsRequest) (c : GetDiagnosticsConfirmation),
      f.GetRequestType = r.TypeOf ∧ f.GetConfirmationType = c.TypeOf) ∧
    (∀ (r : TriggerMessageRequest) (c : TriggerMessageConfirmation),
      g.GetRequestType = r.TypeOf ∧ g.GetConfirmationType = c.TypeOf) ∧
    f.GetRequestType ≠ f.GetConfirmationType ∧
    g.GetRequestType ≠ g.GetConfirmationType ∧
    f.GetRequestType ≠ g.GetRequestType ∧
    f.GetRequestType ≠ g.GetConfirmationType ∧
    f.GetConfirmationType ≠ g.GetRequestType ∧
    f.GetConfirmationType ≠ g.GetConfirmationType := by
  refine ⟨fun _ _ => ⟨rfl, rfl⟩, fun _ _ => ⟨rfl, rfl⟩, ?_, ?_, ?_, ?_, ?_, ?_⟩ <;>
  simp [GetDiagnosticsFeature.GetRequestType, GetDiagnosticsFeature.GetConfirmationType,
    TriggerMessageFeature.GetRequestType, TriggerMessageFeature.GetConfirmationType,
    GetDiagnosticsRequest.TypeOf, GetDiagnosticsConfirmation.TypeOf,
    TriggerMessageRequest.TypeOf, TriggerMessageConfirmation.TypeOf]

/-- C14: for a TriggerMessageRequest whose RequestedMessage is accepted by the
messageTrigger rule, validation succeeds exactly when ConnectorId is at least 0.  A
ConnectorId of 0 passes because `omitempty` ends the rules of the field (the rule
`gt=0` alone rejects 0), every positive ConnectorId passes, and every negative
ConnectorId fails with the single violation ConnectorId/gt. -/
theorem C14_connectorId_nonnegative (p : String → Bool) (ctx : Context)
    (r : TriggerMessageRequest)
    (hm : isValidMessageTrigger ⟨.str r.RequestedMessage, ""⟩ = true) :
    (validate p ctx r.fields = some [] ↔ r.ConnectorId ≥ 0) ∧
    validate p ctx (TriggerMessageRequest.fields { r with ConnectorId := 0 }) = some [] ∧
    (∃ v, init (New p) = some v ∧
      traverseField v ctx "ConnectorId" (.int 0) [⟨"gt", "0"⟩] =
        some [⟨"ConnectorId", "gt", "0"⟩]) ∧
    (∀ n : Int, n > 0 →
      validate p ctx (TriggerMessageRequest.fields { r with ConnectorId := n }) = some []) ∧
    (∀ n : Int, n < 0 →
      validate p ctx (TriggerMessageRequest.fields { r with ConnectorId := n }) =
        some [⟨"ConnectorId", "gt", "0"⟩]) := by
  have hne : r.RequestedMessage ≠ "" := by
    intro h
    rw [h] at hm
    revert hm
    decide
  refine ⟨?_, ?_, ?_, fun n hn => ?_, fun n hn => ?_⟩
  · rw [validate_TriggerMessageRequest]
    by_cases h3 : r.ConnectorId = 0
    · simp [hne, hm, h3]
    · by_cases h4 : r.ConnectorId > 0
      · simp [hne, hm, h3, h4, le_of_lt h4]
      · have h5 : ¬ (0 ≤ r.ConnectorId) := by omega
        simp [hne, hm, h3, h4, h5]
  · rw [validate_TriggerMessageRequest]
    simp [hne, hm]
  · refine ⟨_, init_eq _, ?_⟩
    simp [traverseField, New, isGt, asInt_zero]
  · rw [validate_TriggerMessageRequest]
    have h0 : n ≠ 0 := by omega
    simp [hne, hm, h0, hn]
  · rw [validate_TriggerMessageRequest]
    have h0 : n ≠ 0 := by omega
    have h1 : ¬ (n > 0) := by omega
    simp only [hne, hm, h0, h1, if_true, if_false, List.nil_append]

/-- C14 at a concrete request: the trigger "MeterValues" with ConnectorId 2. -/
theorem C14_connectorId_nonnegative_witness :
    (validate (fun _ => true) ⟨[]⟩ (TriggerMessageRequest.fields ⟨"MeterValues", 2⟩) =
        some [] ↔ (2 : Int) ≥ 0) ∧
    validate (fun _ => true) ⟨[]⟩ (TriggerMessageRequest.fields ⟨"MeterValues", 0⟩) =
      some [] ∧
    (∃ v, init (New (fun _ => true)) = some v ∧
      traverseField v ⟨[]⟩ "ConnectorId" (.int 0) [⟨"gt", "0"⟩] =
        some [⟨"ConnectorId", "gt", "0"⟩]) ∧
    (∀ n : Int, n > 0 →
      validate (fun _ => true) ⟨[]⟩ (TriggerMessageRequest.fields ⟨"MeterValues", n⟩) =
        some []) ∧
    (∀ n : Int, n < 0 →
      validate (fun _ => true) ⟨[]⟩ (TriggerMessageRequest.fields ⟨"MeterValues", n⟩) =
        some [⟨"ConnectorId", "gt", "0"⟩]) :=
  C14_connectorId_nonnegative (fun _ => true) ⟨[]⟩ ⟨"MeterValues", 2⟩ (by decide)

end ocpp16
